import Mathlib

/-!
Primascan driver (src/SANE/primascan.c): shallow embedding.

This file embeds the transfer-script interpreter and chunked read pump of the
Primascan SANE backend in Lean and proves properties of the embedding.

Conventions of the embedding:
* A transfer record (one row of a transfer table in `primascan.h`) is a
  function `Nat → Nat` giving the record's integer slots (`data[0]`,
  `data[1]`, ...).  The tables themselves are opaque configuration supplied by
  the missing header, so records are parameters throughout.
* The 65535-byte `largeBuffer` is a function `Nat → Nat`; stores reduce byte
  values mod 256 exactly where the C code stores into `char`.
* USB calls are oracles: each record carries the integer status its underlying
  `usb_control_msg` / `usb_bulk_read` / `usb_bulk_write` call returns, and for
  in-transfers the bytes the device delivers.
* C `int` results of the driver's own primitives are `Int`.
-/

namespace Primascan

/-- Size of `static char largeBuffer[0xffff]` (primascan.c:98). -/
def largeBufferSize : Nat := 0xffff

/-- Complement `~b` of a `char` holding byte value `b` (primascan.c:617). -/
def invByte (b : Nat) : Nat := 255 - b % 256

/-- One transfer record together with its USB oracle: `fields` are the
record's integer slots, `dev` the bytes the device would deliver into the
buffer for an in-transfer on this record, and `usb` the status the underlying
libusb call returns. -/
structure XferRec where
  fields : Nat → Nat
  dev : Nat → Nat
  usb : Int

/-- The `static` locals of `sane_read` (primascan.c:574-576). -/
structure ReadCursor where
  dataAvailable : Nat
  whereInBuffer : Nat
  i : Nat
deriving DecidableEq

/-- The process-wide mutable state the interpreter and pump share:
`largeBuffer` plus the read cursor statics. -/
structure Globals where
  buffer : Nat → Nat
  cursor : ReadCursor

/-! ## Transfer primitives (primascan.c:750-1031) -/

/-- The function `controlTransfer`: declared size `(data[7] << 8) + data[6]`
(primascan.c:986). -/
def controlTransferSizeField (data : Nat → Nat) : Nat := data 7 * 256 + data 6

/-- The function `controlTransfer`'s writes into `largeBuffer`: `buffer[i] = (char) data[i + 8]`
for `i < size` (primascan.c:993-997). -/
def controlTransferBuffer (data : Nat → Nat) (buf : Nat → Nat) : Nat → Nat :=
  fun idx => if idx < controlTransferSizeField data then data (idx + 8) % 256 else buf idx

/-- The function `controlTransfer`'s return value: 0 if the usb call errored, else 1
(primascan.c:1003-1010). -/
def controlTransferResult (usb : Int) : Int := if usb < 0 then 0 else 1

/-- The function `bulkRead`: declared size `(data[2] << 8) + data[3]` (primascan.c:898).
`sane_read` recomputes the same expression for `dataAvailable`
(primascan.c:651-652). -/
def bulkReadSize (data : Nat → Nat) : Nat := data 2 * 256 + data 3

/-- Result classification shared by the bulk primitives: 1 when the usb call
transferred exactly `size` bytes, 2 when it transferred some but not all,
0 when it failed (primascan.c:907-924, 950-967, 782-797). -/
def bulkResultCode (size : Nat) (usb : Int) : Int :=
  if 0 < usb then (if usb = (size : Int) then 1 else 2) else 0

/-- A bulk-in (or control-in) transfer's effect on `largeBuffer`: the device's
bytes fill the first `count` cells. -/
def bulkFill (dev : Nat → Nat) (count : Nat) (buf : Nat → Nat) : Nat → Nat :=
  fun idx => if idx < count then dev idx % 256 else buf idx

/-- The function `writeBulk0s`: the size the code actually computes,
`(data[2] << 8) + data[1]` — note the second summand is `data[1]`, the
endpoint slot (primascan.c:936). -/
def writeBulk0sSize (data : Nat → Nat) : Nat := data 2 * 256 + data 1

/-- The indices `writeBulk0s` zeroes: `for (i = 0; i <= size; ++i)
largeBuffer[i] = 0` (primascan.c:945-946). -/
def writeBulk0sStores (data : Nat → Nat) : List Nat :=
  List.range (writeBulk0sSize data + 1)

/-- The function `writeBulk0s`'s effect on `largeBuffer` (primascan.c:945-946). -/
def writeBulk0sBuffer (data : Nat → Nat) (buf : Nat → Nat) : Nat → Nat :=
  fun idx => if idx ≤ writeBulk0sSize data then 0 else buf idx

/-- The function `writeBulk0s`'s return value (primascan.c:950-967). -/
def writeBulk0sResult (data : Nat → Nat) (usb : Int) : Int :=
  bulkResultCode (writeBulk0sSize data) usb

/-- The function `repeatedControlTransfer`: declared size `(data[8] << 8) + data[7]`
(primascan.c:866). -/
def rctSize (data : Nat → Nat) : Nat := data 8 * 256 + data 7

/-- The polling loop of `repeatedControlTransfer` (primascan.c:874-886).
`b0` is the byte in `buffer[0]` when the loop is entered; each element of
`rs` is one `usb_control_msg` attempt, `none` standing for a negative status
and `some b` for a successful attempt after which `buffer[0]` holds `b`.
The result is `some (code, attempts)` — `code` the C return value, `attempts`
the number of usb calls issued — or `none` when `rs` is exhausted while the
loop would keep polling (the C loop has no bound). -/
def rctLoop (check : Nat) : List (Option Nat) → Nat → Option (Int × Nat)
  | rs, b0 =>
    if b0 % 256 = check % 256 then some (1, 0)
    else
      match rs with
      | [] => none
      | none :: _ => some (0, 1)
      | some b :: rest =>
        match rctLoop check rest b with
        | none => none
        | some (code, n) => some (code, n + 1)

/-- The function `repeatedControlTransfer` itself: the expected byte is `(char) data[9]`
(primascan.c:871). -/
def repeatedControlTransfer (data : Nat → Nat) (rs : List (Option Nat)) (b0 : Nat) :
    Option (Int × Nat) :=
  rctLoop (data 9) rs b0

/-- Net effect of `repeatedControlTransfer` on `largeBuffer`: if `buffer[0]`
already matches the loop never runs and the buffer is untouched; otherwise the
final successful attempt leaves the device's last response in the first `size`
cells (primascan.c:868-877). -/
def pollBuffer (r : XferRec) (buf : Nat → Nat) : Nat → Nat :=
  if buf 0 % 256 = r.fields 9 % 256 then buf else bulkFill r.dev (rctSize r.fields) buf

/-! ## Calibration primitives (primascan.c:750-848) -/

/-- The `ep = 2` local of `calibrate` (primascan.c:752). -/
def calibrateEp : Nat := 2

/-- The `size = 0xc000` local of `calibrate` (primascan.c:753). -/
def calibrateSize : Nat := 0xc000

/-- The inner loop of `calibrate`: `for (j = 0; j < 64; ++j) buffer[j + i] = temp`
with `temp = (char) incr` (primascan.c:767-772). -/
def fillBlock (base val : Nat) (buf : Nat → Nat) : Nat → Nat :=
  fun idx => if base ≤ idx ∧ idx < base + 64 then val % 256 else buf idx

/-- The outer loop of `calibrate`: `for (i = 0; i < size; i += 64)` filling one
64-byte block per iteration, incrementing `incr` and wrapping it to 0 once it
exceeds 0xff (primascan.c:765-778).  `fuel` bounds the iteration count; the
caller supplies more fuel than the loop can consume. -/
def calibrateLoop (size : Nat) : Nat → Nat → Nat → (Nat → Nat) → (Nat → Nat)
  | 0, _, _, buf => buf
  | fuel + 1, i, incr, buf =>
    if i < size then
      calibrateLoop size fuel (i + 64) (if incr + 1 > 0xff then 0 else incr + 1)
        (fillBlock i incr buf)
    else buf

/-- The function `calibrate`'s synthesized contents of `largeBuffer` (primascan.c:765-778). -/
def calibrateBuffer (buf : Nat → Nat) : Nat → Nat :=
  calibrateLoop calibrateSize calibrateSize 0 0 buf

/-- The function `calibrate`'s return value (primascan.c:782-797). -/
def calibrateResult (usb : Int) : Int :=
  if 0 < usb then (if usb = (calibrateSize : Int) then 1 else 2) else 0

/-- The function `calibrationWrite`: declared size `(data[2] << 8) + data[3]`
(primascan.c:815). -/
def calibrationWriteSize (data : Nat → Nat) : Nat := data 2 * 256 + data 3

/-- The function `calibrationWrite`'s effect on `largeBuffer`: zero the first 0x3000 cells,
then copy the `calibWrite` constant over the prefix (primascan.c:820-826).
`cw` is the `calibWrite` array of the missing header. -/
def calibrationWriteBuffer (cw : List Nat) (buf : Nat → Nat) : Nat → Nat :=
  fun idx =>
    if idx < cw.length then cw.getD idx 0 % 256
    else if idx < 0x3000 then 0
    else buf idx

/-- The function `calibrationWrite`'s return value (primascan.c:830-847). -/
def calibrationWriteResult (data : Nat → Nat) (usb : Int) : Int :=
  bulkResultCode (calibrationWriteSize data) usb

/-! ## The script interpreter's dispatch (primascan.c:504-532, 535-557, 647-659) -/

/-- The primitive a record is dispatched to. -/
inductive Invocation where
  | bulkRead
  | repeatedControl
  | writeBulk0s
  | control
deriving DecidableEq

/-- Dispatch of the setup loop in `sane_start` on the leading opcode byte
(primascan.c:504-526). -/
def setupDispatch (opcode : Nat) : Invocation :=
  if opcode = 0xfa then .bulkRead
  else if opcode = 0xfb then .repeatedControl
  else if opcode = 0xff then .writeBulk0s
  else .control

/-- Dispatch of the scan loop in `sane_read` on the leading opcode byte
(primascan.c:647-658): only `0xfa` is recognized; every other opcode goes to
`controlTransfer`. -/
def scanDispatch (opcode : Nat) : Invocation :=
  if opcode = 0xfa then .bulkRead else .control

/-- The primitive a calibration record is dispatched to (primascan.c:535-551). -/
inductive CalibInvocation where
  | calibrationWrite
  | calibrate
  | control
deriving DecidableEq

/-- Dispatch of the calibration loop in `sane_start` (primascan.c:537-551). -/
def calibDispatch (opcode : Nat) : CalibInvocation :=
  if opcode = 0xfc then .calibrationWrite
  else if opcode = 0xfd then .calibrate
  else .control

/-! ## `sane_start` (primascan.c:468-560) -/

/-- Buffer effect of one setup record dispatched per `setupDispatch`.  For a
bulk read the device fills as many cells as the usb call returned. -/
def setupRecordBuffer (r : XferRec) (buf : Nat → Nat) : Nat → Nat :=
  match setupDispatch (r.fields 0) with
  | .bulkRead => bulkFill r.dev (min r.usb.toNat (bulkReadSize r.fields)) buf
  | .repeatedControl => pollBuffer r buf
  | .writeBulk0s => writeBulk0sBuffer r.fields buf
  | .control => controlTransferBuffer r.fields buf

/-- Buffer effect of one calibration record dispatched per `calibDispatch`. -/
def calibRecordBuffer (cw : List Nat) (r : XferRec) (buf : Nat → Nat) : Nat → Nat :=
  match calibDispatch (r.fields 0) with
  | .calibrationWrite => calibrationWriteBuffer cw buf
  | .calibrate => calibrateBuffer buf
  | .control => controlTransferBuffer r.fields buf

/-- Result code of one calibration record (primascan.c:537-556). -/
def calibRecordResult (r : XferRec) : Int :=
  match calibDispatch (r.fields 0) with
  | .calibrationWrite => calibrationWriteResult r.fields r.usb
  | .calibrate => calibrateResult r.usb
  | .control => controlTransferResult r.usb

/-- The initialize loop of `sane_start` (primascan.c:477-485): every record is
a `controlTransfer`; the first record whose result differs from 1 makes
`sane_start` return `SANE_STATUS_IO_ERROR` at once.  Returns the buffer after
the records that actually ran, and whether the loop aborted. -/
def initPhase : List XferRec → (Nat → Nat) → (Nat → Nat) × Bool
  | [], buf => (buf, false)
  | r :: rest, buf =>
    let buf' := controlTransferBuffer r.fields buf
    if controlTransferResult r.usb ≠ 1 then (buf', true)
    else initPhase rest buf'

/-- The setup loop of `sane_start` (primascan.c:504-532): each record is
dispatched and executed; the C code binds the primitive's result but its
failure branch is empty ("Something went wrong, but it won't effect the scan
any", primascan.c:528-531), so the loop runs every record unconditionally.
Returns the buffer and the number of records executed. -/
def setupPhase : List XferRec → (Nat → Nat) → (Nat → Nat) × Nat
  | [], buf => (buf, 0)
  | r :: rest, buf =>
    let p := setupPhase rest (setupRecordBuffer r buf)
    (p.1, p.2 + 1)

/-- The calibration loop of `sane_start` (primascan.c:535-557): the first
record whose result differs from 1 makes `sane_start` return
`SANE_STATUS_IO_ERROR` at once. -/
def calibPhase (cw : List Nat) : List XferRec → (Nat → Nat) → (Nat → Nat) × Bool
  | [], buf => (buf, false)
  | r :: rest, buf =>
    let buf' := calibRecordBuffer cw r buf
    if calibRecordResult r ≠ 1 then (buf', true)
    else calibPhase cw rest buf'

/-- Status returned by `sane_start`. -/
inductive StartStatus where
  | good
  | ioError
deriving DecidableEq

/-- Everything `sane_start` produces: its SANE status, how many setup records
ran, whether the calibration loop was reached, and the final shared state. -/
structure StartResult where
  status : StartStatus
  setupExecuted : Nat
  calibEntered : Bool
  finalState : Globals

/-- The function `sane_start` (primascan.c:468-560): initialize, then setup, then
calibration.  `sane_start` never mentions the `static` locals of `sane_read`
(they are function-scoped, primascan.c:574-576), so the cursor is carried
through unchanged. -/
def saneStart (init setup calib : List XferRec) (cw : List Nat) (g : Globals) :
    StartResult :=
  let p1 := initPhase init g.buffer
  if p1.2 then
    ⟨.ioError, 0, false, ⟨p1.1, g.cursor⟩⟩
  else
    let p2 := setupPhase setup p1.1
    let p3 := calibPhase cw calib p2.1
    if p3.2 then ⟨.ioError, p2.2, true, ⟨p3.1, g.cursor⟩⟩
    else ⟨.good, p2.2, true, ⟨p3.1, g.cursor⟩⟩

/-! ## `sane_read`, the chunked read pump (primascan.c:562-670) -/

/-- Result of one `sane_read` call: `good out` with the bytes written into the
caller's buffer, `ioError` for `SANE_STATUS_IO_ERROR`, `eof` for
`SANE_STATUS_EOF` (after which `finalizeScanner` has run). -/
inductive ReadResult where
  | good : List Nat → ReadResult
  | ioError : ReadResult
  | eof : ReadResult
deriving DecidableEq

/-- The serving step of `sane_read` (primascan.c:605-644), entered when
`dataAvailable > 0`.  When the pending bytes fit under `maxLen` the code — in
monochrome mode only — first complements them in place in `largeBuffer` and
then copies them out, clearing the cursor; otherwise it copies `maxLen` bytes
verbatim and advances the cursor. -/
def serveChunk (mono : Bool) (maxLen : Nat) (g : Globals) : List Nat × Globals :=
  if g.cursor.dataAvailable < maxLen then
    let buf' : Nat → Nat :=
      if mono then
        fun idx =>
          if g.cursor.whereInBuffer ≤ idx ∧
              idx < g.cursor.whereInBuffer + g.cursor.dataAvailable then
            invByte (g.buffer idx)
          else g.buffer idx
      else g.buffer
    ((List.range g.cursor.dataAvailable).map (fun j => buf' (j + g.cursor.whereInBuffer)),
      ⟨buf', ⟨0, 0, g.cursor.i⟩⟩)
  else
    ((List.range maxLen).map (fun j => g.buffer (j + g.cursor.whereInBuffer)),
      ⟨g.buffer,
        ⟨g.cursor.dataAvailable - maxLen, g.cursor.whereInBuffer + maxLen, g.cursor.i⟩⟩)

/-- The `for (; i < typeSize; i++)` loop of `sane_read` (primascan.c:597-665).
`fuel` is the number of loop iterations left, `table.length - cursor.i` at
entry; the loop serves pending bytes and returns, or dispatches record `i` per
`scanDispatch` and continues.  When the loop exhausts the table the C code
runs `finalizeScanner` and returns `SANE_STATUS_EOF` (primascan.c:667-669). -/
def readLoop (mono : Bool) (table : List XferRec) (maxLen : Nat) :
    Nat → Globals → ReadResult × Globals
  | 0, g => (.eof, g)
  | fuel + 1, g =>
    if 0 < g.cursor.dataAvailable then
      let p := serveChunk mono maxLen g
      (.good p.1, p.2)
    else
      match table.get? g.cursor.i with
      | none => (.eof, g)
      | some r =>
        match scanDispatch (r.fields 0) with
        | .bulkRead =>
          let size := bulkReadSize r.fields
          let buf' := bulkFill r.dev (min r.usb.toNat size) g.buffer
          if bulkResultCode size r.usb ≠ 1 then (.ioError, ⟨buf', ⟨size, 0, g.cursor.i⟩⟩)
          else readLoop mono table maxLen fuel ⟨buf', ⟨size, 0, g.cursor.i + 1⟩⟩
        | _ =>
          let buf' := controlTransferBuffer r.fields g.buffer
          if controlTransferResult r.usb ≠ 1 then (.ioError, ⟨buf', g.cursor⟩)
          else readLoop mono table maxLen fuel ⟨buf', ⟨0, 0, g.cursor.i + 1⟩⟩

/-- One call of `sane_read` with caller capacity `maxLen`:
`mono` is `dpiValue == 200`, `table` the scan table of the active mode. -/
def saneReadCall (mono : Bool) (table : List XferRec) (maxLen : Nat) (g : Globals) :
    ReadResult × Globals :=
  readLoop mono table maxLen (table.length - g.cursor.i) g

/-- Repeated `sane_read` calls of capacity `maxLen`, concatenating the served
chunks, until the pump reports end-of-stream or an error (`calls` bounds the
number of calls). -/
def drain (mono : Bool) (table : List XferRec) (maxLen : Nat) :
    Nat → Globals → List Nat
  | 0, _ => []
  | calls + 1, g =>
    match saneReadCall mono table maxLen g with
    | (.good out, g') => out ++ drain mono table maxLen calls g'
    | (.ioError, _) => []
    | (.eof, _) => []

/-! ## `finalizeScanner` (primascan.c:1014-1031) -/

/-- What `finalizeScanner` does to the process: `exited` models `exit (1)`. -/
inductive FinalizeResult where
  | exited
  | returned : Int → FinalizeResult
deriving DecidableEq

/-- The function `finalizeScanner`: runs `controlTransfer` on every finalize record,
calling `exit (1)` when a result is negative (primascan.c:1019-1030).
`usbResults` are the statuses of the underlying `usb_control_msg` calls. -/
def finalizeScanner : List Int → FinalizeResult
  | [] => .returned 1
  | usb :: rest =>
    if controlTransferResult usb < 0 then .exited
    else finalizeScanner rest

/-! ## Specification-side description of the polling loop

A second description of `repeatedControlTransfer`, following the amended
specification words rather than the C control flow: enumerate the bytes the
loop examines and act on the first match or the first error. -/

/-- The bytes in `buffer[0]` the polling loop gets to examine: the byte
already there, then the byte each successful attempt leaves, stopping at the
first error. -/
def observedBytes : List (Option Nat) → Nat → List Nat
  | [], b0 => [b0]
  | none :: _, b0 => [b0]
  | some b :: rest, b0 => b0 :: observedBytes rest b

/-- Index of the first byte in a list that equals the expected byte modulo
256, if any. -/
def firstMatchIdx (check : Nat) : List Nat → Option Nat
  | [] => none
  | b :: rest =>
    if b % 256 = check % 256 then some 0
    else (firstMatchIdx check rest).map (· + 1)

/-- Follows the amended specification's words: the loop returns Ok with `k`
transfers issued when the `k`-th examined byte (0-indexed, so zero transfers
when the byte already in the buffer matches) is the first to equal the
expected byte; it returns Fail after `m` transfers when none of the `m`
examined bytes match and the `m`-th attempt errors; it polls beyond the
supplied attempts otherwise. -/
def pollingSpec (check : Nat) (rs : List (Option Nat)) (b0 : Nat) :
    Option (Int × Nat) :=
  match firstMatchIdx check (observedBytes rs b0) with
  | some k => some (1, k)
  | none =>
    if rs.get? ((observedBytes rs b0).length - 1) = some none then
      some (0, (observedBytes rs b0).length)
    else none

/-! ## Concrete records used by the counterexample evaluations -/

/-- A scan record: bulk read (opcode 0xfa) of declared size 2; the device
delivers bytes 0x00, 0x01 and the usb call returns 2 (a full read). -/
def bulkRec2 : XferRec :=
  ⟨fun n => if n = 0 then 0xfa else if n = 3 then 2 else 0,
   fun n => if n = 0 then 0x00 else if n = 1 then 0x01 else 0, 2⟩

/-- A scan record: bulk read of declared size 1 delivering the byte 0x41. -/
def bulkRec1 : XferRec :=
  ⟨fun n => if n = 0 then 0xfa else if n = 3 then 1 else 0,
   fun _ => 0x41, 1⟩

/-- A record with opcode 0 and declared size 0: a plain control transfer whose
usb call succeeds. -/
def ctlRecOk : XferRec := ⟨fun _ => 0, fun _ => 0, 0⟩

/-- A fresh process state: zeroed buffer, zeroed read cursor. -/
def freshGlobals : Globals := ⟨fun _ => 0, ⟨0, 0, 0⟩⟩

/-- Monochrome scan table for the inversion counterexamples: one 2-byte bulk
read followed by a control record. -/
def monoTable : List XferRec := [bulkRec2, ctlRecOk]

/-- Scan table for the cursor counterexample: one 1-byte bulk read followed by
a control record. -/
def cursorTable : List XferRec := [bulkRec1, ctlRecOk]

/-- State after a first session fully drains `cursorTable`
(two `sane_read` calls of capacity 3000). -/
def afterFirstSession : Globals :=
  (saneReadCall false cursorTable 3000
    (saneReadCall false cursorTable 3000 freshGlobals).2).2

/-- State after the drained first session and a second `sane_start`
(initialize table of one successful control record, empty setup and
calibration tables). -/
def afterSecondStart : Globals :=
  (saneStart [ctlRecOk] [] [] [] afterFirstSession).finalState

/-- The `writeBulk0s` record of the size counterexample: endpoint slot
`data[1] = 2`, size slots `data[2] = 0x30`, `data[3] = 0x00`. -/
def wb0Rec : Nat → Nat :=
  fun n => if n = 1 then 2 else if n = 2 then 0x30 else 0

/-- A polling record whose expected byte (`data[9]`) is 5. -/
def pollRec5 : Nat → Nat := fun _ => 5

/-- A `writeBulk0s` record whose computed size is the maximum 0xffff:
`data[1] = 0xff` and `data[2] = 0xff`. -/
def wb0MaxRec : Nat → Nat := fun n => if n = 1 then 0xff else if n = 2 then 0xff else 0

/-- Abbreviation: some record of the initialize table fails
(`controlTransfer` result differs from 1). -/
def initFails (init : List XferRec) : Bool :=
  init.any fun r => controlTransferResult r.usb != 1

/-- Abbreviation: some record of the calibration table fails. -/
def calibFails (calib : List XferRec) : Bool :=
  calib.any fun r => calibRecordResult r != 1

/-! # Theorems -/

/-- Helper: `controlTransfer` only ever returns 0 or 1, never a negative
value. -/
theorem controlTransferResult_not_neg (usb : Int) : ¬ controlTransferResult usb < 0 := by
  unfold controlTransferResult
  split <;> omega

/-- C3: the claim says any failed transfer during finalization terminates the
process.  In fact `finalizeScanner` guards on `result < 0`, but
`controlTransfer` returns 0 on failure and 1 on success, so the `exit (1)`
path is unreachable: for every sequence of usb statuses — failing ones
included — `finalizeScanner` walks the whole table and returns 1. -/
theorem finalizeScanner_never_exits (usbResults : List Int) :
    finalizeScanner usbResults = .returned 1 := by
  induction usbResults with
  | nil => rfl
  | cons usb rest ih =>
    unfold finalizeScanner
    rw [if_neg (controlTransferResult_not_neg usb)]
    exact ih

/-- C1: the claim says every byte served in Monochrome mode is the bitwise
complement of the raw device byte, in both serving branches.  In fact only
the remaining-data-smaller-than-capacity branch inverts: on a scan table
whose bulk read delivers the bytes 0x00, 0x01, a monochrome `sane_read` of
capacity 1 takes the remaining-data-at-least-capacity branch and hands the
caller the raw byte 0x00, whose complement 0xff it is not. -/
theorem saneRead_mono_serves_uninverted :
    (saneReadCall true monoTable 1 freshGlobals).1 = .good [0x00] ∧
      invByte 0x00 = 0xff ∧ (0x00 : Nat) ≠ 0xff := by
  refine ⟨by decide, by decide, by decide⟩

/-- C2: the claim says draining the pump at any capacity ≥ 1 yields the byte
sequence of a single unbounded read.  On a monochrome table with one 2-byte
bulk read the capacity-1 drain yields the raw bytes 0x00, 0x01 while the
unbounded (capacity 65535) read yields the complemented bytes 0xff, 0xfe:
the concatenation depends on the capacity. -/
theorem drain_depends_on_capacity :
    drain true monoTable 1 5 freshGlobals = [0x00, 0x01] ∧
      drain true monoTable 0xffff 5 freshGlobals = [0xff, 0xfe] ∧
      ([0x00, 0x01] : List Nat) ≠ [0xff, 0xfe] := by
  refine ⟨by decide, by decide, by decide⟩

/-- C4 counterexample: the claim says opcode 0xfb dispatches to
`repeatedControlTransfer` in the Scan phase as well.  In fact the scan loop
of `sane_read` sends every opcode other than 0xfa — 0xfb included — to plain
`controlTransfer`. -/
theorem scanDispatch_fb_is_control :
    scanDispatch 0xfb = .control ∧ Invocation.control ≠ Invocation.repeatedControl := by
  refine ⟨by decide, by decide⟩

/-- C4 (amended): in the Setup phase the leading opcode dispatches 0xfa to
`bulkRead`, 0xfb to `repeatedControlTransfer`, 0xff to `writeBulk0s` and
every other opcode to plain `controlTransfer` (a default, not an error); in
the Scan phase dispatch is two-way only — 0xfa to `bulkRead`, every other
opcode (0xfb and 0xff included) to `controlTransfer` — and
`repeatedControlTransfer` and `writeBulk0s` are never invoked. -/
theorem dispatch_by_opcode (op : Nat) :
    (setupDispatch op = .bulkRead ↔ op = 0xfa) ∧
      (setupDispatch op = .repeatedControl ↔ op = 0xfb) ∧
      (setupDispatch op = .writeBulk0s ↔ op = 0xff) ∧
      (setupDispatch op = .control ↔ (op ≠ 0xfa ∧ op ≠ 0xfb ∧ op ≠ 0xff)) ∧
      (scanDispatch op = .bulkRead ↔ op = 0xfa) ∧
      (scanDispatch op = .control ↔ op ≠ 0xfa) ∧
      scanDispatch op ≠ .repeatedControl ∧ scanDispatch op ≠ .writeBulk0s := by
  by_cases h1 : op = 0xfa <;> by_cases h2 : op = 0xfb <;> by_cases h3 : op = 0xff <;>
    simp_all [setupDispatch, scanDispatch]

/-- C7: the claim (and the function's own header comment) says `writeBulk0s`
takes its transfer size from the two size byte slots.  In fact the code
computes `(data[2] << 8) + data[1]`, folding in the endpoint slot `data[1]`:
on a record with endpoint 2 and size bytes 0x30, 0x00 it computes 0x3002
where the declared big-endian size is 0x3000. -/
theorem writeBulk0s_size_uses_endpoint_slot :
    writeBulk0sSize wb0Rec = 0x3002 ∧
      wb0Rec 2 * 256 + wb0Rec 3 = 0x3000 ∧ (0x3002 : Nat) ≠ 0x3000 := by
  refine ⟨by decide, by decide, by decide⟩

/-- C8 counterexample: the claim says the polling primitive issues its
control transfer at least once.  In fact the loop tests `buffer[0]` before
the first attempt: when the byte already equals the expected byte (here 5),
`repeatedControlTransfer` returns Ok having issued zero transfers. -/
theorem repeatedControlTransfer_zero_attempts :
    repeatedControlTransfer pollRec5 [] 5 = some (1, 0) ∧ ¬ (1 ≤ 0) := by
  refine ⟨by decide, by decide⟩

/-- C6 counterexample: the claim says a new `sane_start` resets the read
cursor to (0, 0, 0).  In fact after a first session drains a two-record scan
table (leaving table index 2) a subsequent `sane_start` leaves the cursor
untouched, so the second session's first read returns EOF at once instead of
serving the table's bulk data the way a fresh cursor does. -/
theorem cursor_survives_saneStart :
    afterSecondStart.cursor ≠ (⟨0, 0, 0⟩ : ReadCursor) ∧
      (saneReadCall false cursorTable 3000 afterSecondStart).1 = .eof ∧
      (saneReadCall false cursorTable 3000 freshGlobals).1 = .good [0x41] := by
  refine ⟨by decide, by decide, by decide⟩

/-- Helper: the initialize loop aborts exactly when some initialize record's
`controlTransfer` result differs from 1. -/
theorem initPhase_aborts (rs : List XferRec) :
    ∀ buf : Nat → Nat, (initPhase rs buf).2 = initFails rs := by
  induction rs with
  | nil => intro buf; rfl
  | cons r rest ih =>
    intro buf
    unfold initPhase initFails
    by_cases h : controlTransferResult r.usb ≠ 1
    · simp [h, List.any_cons, bne_iff_ne]
    · rw [not_not] at h
      simp only [List.any_cons, h, if_neg (by simp : ¬ (1 : Int) ≠ 1), bne_self_eq_false,
        Bool.false_or]
      simpa [initFails] using ih (controlTransferBuffer r.fields buf)

/-- Helper: the setup loop executes every record of its table. -/
theorem setupPhase_count (rs : List XferRec) :
    ∀ buf : Nat → Nat, (setupPhase rs buf).2 = rs.length := by
  induction rs with
  | nil => intro buf; rfl
  | cons r rest ih =>
    intro buf
    unfold setupPhase
    simp [ih (setupRecordBuffer r buf)]

/-- Helper: the calibration loop aborts exactly when some calibration
record's result differs from 1. -/
theorem calibPhase_aborts (cw : List Nat) (rs : List XferRec) :
    ∀ buf : Nat → Nat, (calibPhase cw rs buf).2 = calibFails rs := by
  induction rs with
  | nil => intro buf; rfl
  | cons r rest ih =>
    intro buf
    unfold calibPhase calibFails
    by_cases h : calibRecordResult r ≠ 1
    · simp [h, List.any_cons, bne_iff_ne]
    · rw [not_not] at h
      simp only [List.any_cons, h, if_neg (by simp : ¬ (1 : Int) ≠ 1), bne_self_eq_false,
        Bool.false_or]
      simpa [calibFails] using ih (calibRecordBuffer cw r buf)

/-- C5: setup-phase outcomes are swallowed.  `sane_start`'s status depends
only on the initialize and calibration tables, the setup loop executes its
whole table whenever the initialize phase passed, and the calibration phase
is entered regardless of any setup record's result — a setup failure alone
never produces an error status. -/
theorem saneStart_ignores_setup_results (init setup calib : List XferRec)
    (cw : List Nat) (g : Globals) :
    (saneStart init setup calib cw g).status =
        (if initFails init then .ioError else if calibFails calib then .ioError else .good) ∧
      (saneStart init setup calib cw g).setupExecuted =
        (if initFails init then 0 else setup.length) ∧
      (saneStart init setup calib cw g).calibEntered = !initFails init := by
  unfold saneStart
  have h1 := initPhase_aborts init g.buffer
  by_cases hb : initFails init
  · simp [h1, hb]
  · have h2 := setupPhase_count setup (initPhase init g.buffer).1
    have h3 := calibPhase_aborts cw calib (setupPhase setup (initPhase init g.buffer).1).1
    by_cases hc : calibFails calib <;> simp [h1, hb, h2, h3, hc]

/-- C10: the zero-fill loop of `writeBulk0s` runs `i` from 0 through the
computed size inclusive, so it performs size + 1 stores; every store lands
inside the 65535-byte `largeBuffer` exactly when the computed size is at most
0xfffe, the size index itself is always stored, and for the maximal computed
size 0xffff that final store is out of bounds. -/
theorem writeBulk0s_zero_fill_bounds :
    (∀ data : Nat → Nat,
        (writeBulk0sStores data).length = writeBulk0sSize data + 1 ∧
          ((∀ idx ∈ writeBulk0sStores data, idx < largeBufferSize) ↔
            writeBulk0sSize data ≤ 0xfffe) ∧
          writeBulk0sSize data ∈ writeBulk0sStores data) ∧
      writeBulk0sSize wb0MaxRec = 0xffff ∧ ¬ (0xffff < largeBufferSize) := by
  refine ⟨fun data => ⟨List.length_range _, ⟨?_, ?_⟩, ?_⟩, by decide, by decide⟩
  · intro h
    have hm : writeBulk0sSize data ∈ writeBulk0sStores data :=
      List.mem_range.2 (Nat.lt_succ_self _)
    have := h _ hm
    unfold largeBufferSize at this
    omega
  · intro h idx hidx
    rw [writeBulk0sStores, List.mem_range] at hidx
    unfold largeBufferSize
    omega
  · exact List.mem_range.2 (Nat.lt_succ_self _)

/-- Helper: `fillBlock` leaves indices below its base untouched. -/
theorem fillBlock_below (base val : Nat) (buf : Nat → Nat) (q : Nat) (h : q < base) :
    fillBlock base val buf q = buf q := by
  unfold fillBlock
  rw [if_neg (by omega)]

/-- Helper: the calibration fill loop never writes below its current block
base. -/
theorem calibrateLoop_below (size : Nat) :
    ∀ (fuel i incr : Nat) (buf : Nat → Nat) (q : Nat), q < i →
      calibrateLoop size fuel i incr buf q = buf q := by
  intro fuel
  induction fuel with
  | zero => intro i incr buf q _; rfl
  | succ n ih =>
    intro i incr buf q hq
    unfold calibrateLoop
    split
    · rw [ih (i + 64) _ _ q (by omega)]
      exact fillBlock_below i incr buf q hq
    · rfl

/-- Helper: the calibration fill loop never writes at or beyond `size` when
`size` and the running base are multiples of 64. -/
theorem calibrateLoop_beyond (size : Nat) (hsz : size % 64 = 0) :
    ∀ (fuel i incr : Nat) (buf : Nat → Nat) (q : Nat), size ≤ q → i % 64 = 0 →
      calibrateLoop size fuel i incr buf q = buf q := by
  intro fuel
  induction fuel with
  | zero => intro i incr buf q _ _; rfl
  | succ n ih =>
    intro i incr buf q hq hi
    unfold calibrateLoop
    split
    · next hlt =>
      rw [ih (i + 64) _ _ q hq (by omega)]
      unfold fillBlock
      rw [if_neg (by omega)]
    · rfl

/-- Helper: inside the filled region the calibration loop writes
`base / 64 mod 256` at every index, maintained by the invariant that `incr`
equals the running block counter mod 256. -/
theorem calibrateLoop_value (size : Nat) :
    ∀ (fuel i incr : Nat) (buf : Nat → Nat) (p : Nat), i ≤ p → p < size →
      p < i + 64 * fuel → i % 64 = 0 → incr = i / 64 % 256 →
      calibrateLoop size fuel i incr buf p = p / 64 % 256 := by
  intro fuel
  induction fuel with
  | zero => intro i incr buf p h1 _ h3 _ _; omega
  | succ n ih =>
    intro i incr buf p h1 h2 h3 h4 h5
    unfold calibrateLoop
    rw [if_pos (by omega : i < size)]
    by_cases hp : p < i + 64
    · rw [calibrateLoop_below size n (i + 64) _ _ p (by omega)]
      unfold fillBlock
      rw [if_pos ⟨h1, hp⟩]
      have hdiv : p / 64 = i / 64 := by omega
      rw [hdiv, h5]
      omega
    · refine ih (i + 64) _ _ p (by omega) h2 (by omega) (by omega) ?_
      have hdiv : (i + 64) / 64 = i / 64 + 1 := by omega
      rw [hdiv]
      split
      · omega
      · omega

/-- C9: `calibrate` synthesizes the 0xC000-byte ramp: the byte at every index
below 0xC000 is its 64-byte block number mod 256 (blocks run 0, 1, ..., 255
and wrap), indices at or beyond 0xC000 are untouched; the single bulk-out
transfer size is 0xC000, and its result is Ok exactly when the usb call wrote
all 0xC000 bytes, PartialOk exactly when it wrote some but not all, and Fail
exactly when it wrote nothing or errored. -/
theorem calibrate_ramp_pattern (buf : Nat → Nat) (p : Nat) (usb : Int) :
    calibrateBuffer buf p = (if p < 0xc000 then p / 64 % 256 else buf p) ∧
      calibrateSize = 0xc000 ∧
      (calibrateResult usb = 1 ↔ usb = 0xc000) ∧
      (calibrateResult usb = 2 ↔ (0 < usb ∧ usb ≠ 0xc000)) ∧
      (calibrateResult usb = 0 ↔ usb ≤ 0) := by
  refine ⟨?_, rfl, ?_, ?_, ?_⟩
  · unfold calibrateBuffer calibrateSize
    split
    · next hp =>
      exact calibrateLoop_value 0xc000 0xc000 0 0 buf p (Nat.zero_le p) hp (by omega)
        (by omega) (by omega)
    · next hp =>
      exact calibrateLoop_beyond 0xc000 (by omega) 0xc000 0 0 buf p (by omega) (by omega)
  · unfold calibrateResult calibrateSize
    split <;> try split
    all_goals omega
  · unfold calibrateResult calibrateSize
    split <;> try split
    all_goals omega
  · unfold calibrateResult calibrateSize
    split <;> try split
    all_goals omega

/-- Helper: one-step equation of the polling loop on an empty oracle. -/
theorem rctLoop_nil (check b0 : Nat) :
    rctLoop check [] b0 = if b0 % 256 = check % 256 then some (1, 0) else none := rfl

/-- Helper: one-step equation of the polling loop when the next attempt
errors. -/
theorem rctLoop_cons_none (check b0 : Nat) (rest : List (Option Nat)) :
    rctLoop check (none :: rest) b0 =
      if b0 % 256 = check % 256 then some (1, 0) else some (0, 1) := rfl

/-- Helper: one-step equation of the polling loop when the next attempt
succeeds. -/
theorem rctLoop_cons_some (check b0 b : Nat) (rest : List (Option Nat)) :
    rctLoop check (some b :: rest) b0 =
      if b0 % 256 = check % 256 then some (1, 0)
      else
        match rctLoop check rest b with
        | none => none
        | some (code, n) => some (code, n + 1) := rfl

/-- Helper: the loop always examines at least one byte. -/
theorem observedBytes_length_pos (rs : List (Option Nat)) (b0 : Nat) :
    0 < (observedBytes rs b0).length := by
  cases rs with
  | nil => simp [observedBytes]
  | cons r rest => cases r <;> simp [observedBytes]

/-- Helper: the C polling loop and the specification-side description agree
on every expected byte, initial buffer byte and oracle. -/
theorem rctLoop_eq_pollingSpec (rs : List (Option Nat)) :
    ∀ check b0 : Nat, rctLoop check rs b0 = pollingSpec check rs b0 := by
  induction rs with
  | nil =>
    intro check b0
    by_cases h : b0 % 256 = check % 256 <;>
      simp [rctLoop_nil, pollingSpec, observedBytes, firstMatchIdx, h]
  | cons r rest ih =>
    intro check b0
    cases r with
    | none =>
      by_cases h : b0 % 256 = check % 256 <;>
        simp [rctLoop_cons_none, pollingSpec, observedBytes, firstMatchIdx, h]
    | some b =>
      by_cases h : b0 % 256 = check % 256
      · simp [rctLoop_cons_some, pollingSpec, observedBytes, firstMatchIdx, h]
      · rw [rctLoop_cons_some, if_neg h, ih check b]
        simp only [pollingSpec, observedBytes, firstMatchIdx, if_neg h, List.length_cons]
        cases hf : firstMatchIdx check (observedBytes rest b) with
        | some k => simp [hf]
        | none =>
          have hpos := observedBytes_length_pos rest b
          have hidx : (observedBytes rest b).length + 1 - 1 =
              ((observedBytes rest b).length - 1) + 1 := by omega
          rw [hidx, List.get?_cons_succ]
          by_cases hg : rest.get? ((observedBytes rest b).length - 1) = some none <;>
            rw [List.get?_eq_getElem?] at hg <;> simp [hg]

/-- C8 (amended): `repeatedControlTransfer` examines the transfer buffer's
first byte before each attempt, the first included: it returns Ok issuing no
transfer at all when the byte already equals the record's expected byte,
otherwise it repeats the transfer until the first examined byte matches
(returning Ok) and returns Fail immediately upon the first underlying call
that reports an error — exactly the behavior of the specification-side
`pollingSpec`. -/
theorem repeatedControlTransfer_eq_pollingSpec (data : Nat → Nat)
    (rs : List (Option Nat)) (b0 : Nat) :
    repeatedControlTransfer data rs b0 = pollingSpec (data 9) rs b0 :=
  rctLoop_eq_pollingSpec rs (data 9) b0

/-- C6 (amended): the read cursor is the `static` locals of `sane_read`;
`sane_start` never touches them, so whatever cursor a previous session left
behind survives a new `sane_start` unchanged — there is no reset. -/
theorem saneStart_preserves_cursor (init setup calib : List XferRec) (cw : List Nat)
    (g : Globals) : (saneStart init setup calib cw g).finalState.cursor = g.cursor := by
  unfold saneStart
  by_cases h1 : (initPhase init g.buffer).2 <;> simp [h1]
  by_cases h3 : (calibPhase cw calib (setupPhase setup (initPhase init g.buffer).1).1).2 <;>
    simp [h3]

end Primascan
